import Mathlib

/-
Verification of the orientation-sensing subsystem of the Water Feature
Controller firmware (source/motion_task.c), as a shallow embedding in Lean 4.

The embedding models:
  * the orientation enumeration `orientation_t`;
  * the pure classification core of `motionsensor_update_orientation`
    (lines 462-517 of motion_task.c);
  * the semaphore take/give discipline of `motionsensor_init`,
    `motionsensor_config_interrupt` and `motionsensor_update_orientation`;
  * the event trace of `task_motion` (the sensing task loop), driven by an
    environment that supplies driver results and acceleration samples;
  * the FreeRTOS single-slot task-notification contract used between
    `motionsensor_interrupt_handler` and `task_motion`.

Machine integers: the accelerometer components `data.accel.x/y/z` are
`int16_t` in the BMI160 driver; `abs()` of an `int16_t` value fits in the
`uint16_t` variables `abs_x/abs_y/abs_z` without overflow (|−32768| = 32768 <
65536), so `Int.natAbs` models the C computation exactly on the sensor's
value range. Result codes (`cy_rslt_t`, a `uint32_t`) are modelled as `Nat`,
with `CY_RSLT_SUCCESS = 0`.
-/

/-- Embedding of the enum `orientation_t` (motion_task.c lines 112-121). -/
inductive orientation_t where
  | ORIENTATION_NULL            -- 0: default state used for initialization
  | ORIENTATION_TOP_EDGE        -- 1
  | ORIENTATION_BOTTOM_EDGE     -- 2
  | ORIENTATION_LEFT_EDGE       -- 3
  | ORIENTATION_RIGHT_EDGE      -- 4
  | ORIENTATION_DISP_UP         -- 5
  | ORIENTATION_DISP_DOWN       -- 6
  deriving DecidableEq, Repr

/-- Embedding of the accelerometer part of `mtb_bmi160_data_t`: the three
`int16_t` components `data.accel.x`, `data.accel.y`, `data.accel.z`. -/
structure bmi160_accel where
  x : Int
  y : Int
  z : Int
  deriving DecidableEq, Repr

/-- The `CY_RSLT_SUCCESS` result code (0). -/
def CY_RSLT_SUCCESS : Nat := 0

/-- The `BMI160_E_NULL_PTR` error code: `INT8_C(-1)` in bmi160_defs.h,
which converts to 0xFFFFFFFF when stored in a `cy_rslt_t` (`uint32_t`). -/
def BMI160_E_NULL_PTR : Nat := 4294967295

/-- Embedding of the classification core of `motionsensor_update_orientation`
(motion_task.c lines 464-516): given the acceleration sample read from the
sensor, compute the orientation value stored through `orientation_result`.
`abs_x`, `abs_y`, `abs_z` are the `uint16_t` absolute values of lines
465-467; the branch structure mirrors lines 472-516 exactly. -/
def orientation_of_accel (a : bmi160_accel) : orientation_t :=
  let abs_x := a.x.natAbs
  let abs_y := a.y.natAbs
  let abs_z := a.z.natAbs
  if abs_z > abs_x ∧ abs_z > abs_y then
    -- Z axis is most aligned with gravity (lines 472-484)
    if a.z < 0 then orientation_t.ORIENTATION_DISP_DOWN
    else orientation_t.ORIENTATION_DISP_UP
  else if abs_y > abs_x ∧ abs_y > abs_z then
    -- Y axis is most aligned with gravity (lines 488-500)
    if a.y > 0 then orientation_t.ORIENTATION_BOTTOM_EDGE
    else orientation_t.ORIENTATION_TOP_EDGE
  else
    -- X axis fallback (lines 504-516)
    if a.x < 0 then orientation_t.ORIENTATION_RIGHT_EDGE
    else orientation_t.ORIENTATION_LEFT_EDGE

/-- C1: for every acceleration sample with |z| > |x| and |z| > |y|, the
classifier returns `ORIENTATION_DISP_DOWN` (FaceDown) when z is negative and
`ORIENTATION_DISP_UP` (FaceUp) when z is non-negative. -/
theorem classifier_z_dominant (a : bmi160_accel)
    (hx : a.z.natAbs > a.x.natAbs) (hy : a.z.natAbs > a.y.natAbs) :
    orientation_of_accel a =
      if a.z < 0 then orientation_t.ORIENTATION_DISP_DOWN
      else orientation_t.ORIENTATION_DISP_UP := by
  unfold orientation_of_accel
  simp only [if_pos (And.intro hx hy)]

/-- Witness for C1 at the concrete sample (x = 10, y = 20, z = 900): the
hypotheses hold and the classifier returns `ORIENTATION_DISP_UP`. -/
theorem classifier_z_dominant_witness :
    Int.natAbs 900 > Int.natAbs 10 ∧ Int.natAbs 900 > Int.natAbs 20 ∧
    orientation_of_accel ⟨10, 20, 900⟩ = orientation_t.ORIENTATION_DISP_UP := by
  refine ⟨by decide, by decide, ?_⟩
  have h := classifier_z_dominant ⟨10, 20, 900⟩ (by decide) (by decide)
  simpa using h

/-- C2 (counterexample): at the sample (x = 0, y = 5, z = 5) the claim's
hypotheses hold — |y| > |x|, |y| ≥ |z|, and the sample is not z-dominant
(¬(|z| > |x| ∧ |z| > |y|) fails because |z| > |y| is false) — and y is
positive, yet the classifier returns `ORIENTATION_LEFT_EDGE`, not the
`ORIENTATION_BOTTOM_EDGE` the claim requires: the |y| = |z| tie falls
through to the x branch. -/
theorem classifier_y_tie_counterexample :
    Int.natAbs 5 > Int.natAbs 0 ∧ Int.natAbs 5 ≥ Int.natAbs 5 ∧
    ¬ (Int.natAbs 5 > Int.natAbs 0 ∧ Int.natAbs 5 > Int.natAbs 5) ∧
    (0 : Int) < 5 ∧
    orientation_of_accel ⟨0, 5, 5⟩ = orientation_t.ORIENTATION_LEFT_EDGE ∧
    orientation_of_accel ⟨0, 5, 5⟩ ≠ orientation_t.ORIENTATION_BOTTOM_EDGE := by
  refine ⟨by decide, by decide, by decide, by decide, ?_, ?_⟩ <;> decide

/-- C2 (amended): for every sample with |y| > |x| and |y| > |z| (strictly —
a |y| = |z| tie instead falls through to the x branch), the classifier
returns `ORIENTATION_BOTTOM_EDGE` when y is positive and
`ORIENTATION_TOP_EDGE` when y is non-positive. -/
theorem classifier_y_dominant (a : bmi160_accel)
    (hx : a.y.natAbs > a.x.natAbs) (hz : a.y.natAbs > a.z.natAbs) :
    orientation_of_accel a =
      if a.y > 0 then orientation_t.ORIENTATION_BOTTOM_EDGE
      else orientation_t.ORIENTATION_TOP_EDGE := by
  unfold orientation_of_accel
  have hnotz : ¬ (a.z.natAbs > a.x.natAbs ∧ a.z.natAbs > a.y.natAbs) := by
    intro h
    exact absurd h.2 (Nat.not_lt.mpr (Nat.le_of_lt hz))
  simp only [if_neg hnotz, if_pos (And.intro hx hz)]

/-- Witness for the amended C2 at the concrete sample (x = 50, y = 700,
z = 100): the hypotheses hold and the classifier returns
`ORIENTATION_BOTTOM_EDGE`. -/
theorem classifier_y_dominant_witness :
    Int.natAbs 700 > Int.natAbs 50 ∧ Int.natAbs 700 > Int.natAbs 100 ∧
    orientation_of_accel ⟨50, 700, 100⟩ = orientation_t.ORIENTATION_BOTTOM_EDGE := by
  refine ⟨by decide, by decide, ?_⟩
  have h := classifier_y_dominant ⟨50, 700, 100⟩ (by decide) (by decide)
  simpa using h

/-- C3 (counterexample): at the sample (x = 5, y = 0, z = 5) we have
|z| ≥ |x| and |z| ≥ |y|, so the claim requires z to dominate (result
`ORIENTATION_DISP_UP` or `ORIENTATION_DISP_DOWN`), but the classifier
returns `ORIENTATION_LEFT_EDGE`: the |z| = |x| tie falls through past both
the z branch and the y branch to the x fallback. -/
theorem tie_precedence_counterexample :
    Int.natAbs 5 ≥ Int.natAbs 5 ∧ Int.natAbs 5 ≥ Int.natAbs 0 ∧
    orientation_of_accel ⟨5, 0, 5⟩ = orientation_t.ORIENTATION_LEFT_EDGE ∧
    orientation_of_accel ⟨5, 0, 5⟩ ≠ orientation_t.ORIENTATION_DISP_UP ∧
    orientation_of_accel ⟨5, 0, 5⟩ ≠ orientation_t.ORIENTATION_DISP_DOWN := by
  refine ⟨by decide, by decide, ?_, ?_, ?_⟩ <;> decide

/-- C3 (amended): equal-magnitude ties fall through toward the x fallback,
not toward z. Exactly: the result is a z result (`ORIENTATION_DISP_UP` or
`ORIENTATION_DISP_DOWN`) iff |z| strictly exceeds both |x| and |y|; it is a
y result (`ORIENTATION_BOTTOM_EDGE` or `ORIENTATION_TOP_EDGE`) iff z does
not strictly dominate and |y| strictly exceeds both |x| and |z|; in every
other case — including all ties at the maximum magnitude — the result is an
x result (`ORIENTATION_RIGHT_EDGE` or `ORIENTATION_LEFT_EDGE`). -/
theorem classifier_tie_break (a : bmi160_accel) :
    ((orientation_of_accel a = orientation_t.ORIENTATION_DISP_UP ∨
      orientation_of_accel a = orientation_t.ORIENTATION_DISP_DOWN) ↔
        (a.z.natAbs > a.x.natAbs ∧ a.z.natAbs > a.y.natAbs)) ∧
    ((orientation_of_accel a = orientation_t.ORIENTATION_BOTTOM_EDGE ∨
      orientation_of_accel a = orientation_t.ORIENTATION_TOP_EDGE) ↔
        (¬ (a.z.natAbs > a.x.natAbs ∧ a.z.natAbs > a.y.natAbs) ∧
          a.y.natAbs > a.x.natAbs ∧ a.y.natAbs > a.z.natAbs)) ∧
    ((orientation_of_accel a = orientation_t.ORIENTATION_RIGHT_EDGE ∨
      orientation_of_accel a = orientation_t.ORIENTATION_LEFT_EDGE) ↔
        (¬ (a.z.natAbs > a.x.natAbs ∧ a.z.natAbs > a.y.natAbs) ∧
         ¬ (a.y.natAbs > a.x.natAbs ∧ a.y.natAbs > a.z.natAbs))) := by
  unfold orientation_of_accel
  by_cases hz : a.z.natAbs > a.x.natAbs ∧ a.z.natAbs > a.y.natAbs
  · simp only [if_pos hz]
    by_cases hs : a.z < 0 <;> simp [hs, hz]
  · simp only [if_neg hz]
    by_cases hy : a.y.natAbs > a.x.natAbs ∧ a.y.natAbs > a.z.natAbs
    · simp only [if_pos hy]
      by_cases hs : a.y > 0 <;> simp [hs, hy, hz]
    · simp only [if_neg hy]
      by_cases hs : a.x < 0 <;> simp [hs, hy, hz]

/-- C4: for every sample taken by neither the z-dominant branch nor the
y-dominant branch, the classifier returns `ORIENTATION_RIGHT_EDGE` when x is
negative and `ORIENTATION_LEFT_EDGE` when x is non-negative. -/
theorem classifier_x_fallback (a : bmi160_accel)
    (hz : ¬ (a.z.natAbs > a.x.natAbs ∧ a.z.natAbs > a.y.natAbs))
    (hy : ¬ (a.y.natAbs > a.x.natAbs ∧ a.y.natAbs > a.z.natAbs)) :
    orientation_of_accel a =
      if a.x < 0 then orientation_t.ORIENTATION_RIGHT_EDGE
      else orientation_t.ORIENTATION_LEFT_EDGE := by
  unfold orientation_of_accel
  simp only [if_neg hz, if_neg hy]

/-- Witness for C4 at the concrete sample (x = -600, y = 50, z = 100): the
hypotheses hold and the classifier returns `ORIENTATION_RIGHT_EDGE`. -/
theorem classifier_x_fallback_witness :
    ¬ (Int.natAbs 100 > Int.natAbs (-600) ∧ Int.natAbs 100 > Int.natAbs 50) ∧
    ¬ (Int.natAbs 50 > Int.natAbs (-600) ∧ Int.natAbs 50 > Int.natAbs 100) ∧
    orientation_of_accel ⟨-600, 50, 100⟩ = orientation_t.ORIENTATION_RIGHT_EDGE := by
  refine ⟨by decide, by decide, ?_⟩
  have h := classifier_x_fallback ⟨-600, 50, 100⟩ (by decide) (by decide)
  simpa using h

/-- Semaphore operations on `i2c_semaphore`: `xSemaphoreTake` and
`xSemaphoreGive`. -/
inductive SemOp where
  | take
  | give
  deriving DecidableEq, Repr

/-- How a call into one of the motion-sensor operations ends: either the
function returns a `cy_rslt_t` to its caller, or `CHECK_RESULT` fired inside
it — printing the error and calling `vTaskSuspend(NULL)`, which suspends the
calling task indefinitely (nothing in the program ever resumes it). -/
inductive ExitKind where
  | ret (result : Nat)
  | task_suspended
  deriving DecidableEq, Repr

/-- Semaphore trace and exit of one motion-sensor operation. -/
structure SemOutcome where
  sem_trace : List SemOp
  exit : ExitKind
  deriving DecidableEq, Repr

/-- Number of unreleased takes left by a semaphore trace (takes minus
gives, as an integer). A balanced exit leaves 0. -/
def sem_held (trace : List SemOp) : Int :=
  trace.foldl (fun h op => match op with | SemOp.take => h + 1 | SemOp.give => h - 1) 0

/-- Embedding of `motionsensor_init` (motion_task.c lines 275-306),
parameterized by the results the three driver calls would return:
`cyhal_i2c_init` (line 291), `cyhal_i2c_configure` (line 296) and
`mtb_bmi160_init_i2c` (line 300). The function takes `i2c_semaphore` at
line 288. If `cyhal_i2c_init` or `cyhal_i2c_configure` fails, the
`CHECK_RESULT` macro at line 293 / 297 prints the error and calls
`vTaskSuspend(NULL)` before control ever reaches the `xSemaphoreGive` at
line 303, so the task suspends still holding the semaphore. Only on the
path reaching `mtb_bmi160_init_i2c` is the semaphore given back (line 303)
before its result is returned (line 305). -/
def motionsensor_init (i2c_init_result i2c_configure_result bmi160_init_result : Nat) :
    SemOutcome :=
  if i2c_init_result ≠ CY_RSLT_SUCCESS then
    { sem_trace := [SemOp.take], exit := ExitKind.task_suspended }
  else if i2c_configure_result ≠ CY_RSLT_SUCCESS then
    { sem_trace := [SemOp.take], exit := ExitKind.task_suspended }
  else
    { sem_trace := [SemOp.take, SemOp.give], exit := ExitKind.ret bmi160_init_result }

/-- Embedding of the semaphore discipline of `motionsensor_config_interrupt`
(motion_task.c lines 352-410): take at line 399, one driver call
(`mtb_bmi160_config_int`, line 402) whose result is captured, give at line
407, return the result at line 409 — the semaphore is released whether the
driver call succeeded or failed. -/
def motionsensor_config_interrupt (config_int_result : Nat) : SemOutcome :=
  { sem_trace := [SemOp.take, SemOp.give], exit := ExitKind.ret config_int_result }

/-- Outcome of `motionsensor_update_orientation`: its semaphore trace, the
returned `cy_rslt_t`, and the final value of the variable
`*orientation_result` points to (`pointee`). When the pointer is NULL the
variable is never written and keeps its previous value. -/
structure UpdateOutcome where
  sem_trace : List SemOp
  result : Nat
  pointee : orientation_t
  deriving DecidableEq, Repr

/-- Embedding of `motionsensor_update_orientation` (motion_task.c lines
431-521). `ptr_is_null` models `orientation_result == NULL` (line 444);
`prev` is the value of the output variable before the call; `read_result`
is the result `mtb_bmi160_read` (line 457) would return, and `d` the
acceleration data it would deliver. On the non-null path the variable is
first cleared to `ORIENTATION_NULL` (line 451), then the semaphore is taken
(line 454), the sensor read performed (line 457) and the semaphore given
back (line 460); the classification of lines 462-517 overwrites the
variable only when the read succeeded. -/
def motionsensor_update_orientation (ptr_is_null : Bool) (prev : orientation_t)
    (read_result : Nat) (d : bmi160_accel) : UpdateOutcome :=
  if ptr_is_null then
    { sem_trace := [], result := BMI160_E_NULL_PTR, pointee := prev }
  else if read_result = CY_RSLT_SUCCESS then
    { sem_trace := [SemOp.take, SemOp.give], result := CY_RSLT_SUCCESS,
      pointee := orientation_of_accel d }
  else
    { sem_trace := [SemOp.take, SemOp.give], result := read_result,
      pointee := orientation_t.ORIENTATION_NULL }

/-- C5 (the code violates the release-on-every-exit invariant): when
`cyhal_i2c_init` fails (result 1) inside `motionsensor_init`, the operation
ends with the task suspended by `CHECK_RESULT` while still holding one
unreleased take of `i2c_semaphore` — `xSemaphoreGive` is never reached on
that exit path. -/
theorem motionsensor_init_leaks_semaphore_on_i2c_failure :
    (motionsensor_init 1 0 0).exit = ExitKind.task_suspended ∧
    sem_held (motionsensor_init 1 0 0).sem_trace = 1 := by
  constructor <;> decide

/-- C10: whenever `motionsensor_update_orientation` is called with a
non-null output pointer and the sensor read fails, the output variable ends
up holding `ORIENTATION_NULL` (the clear at line 451 is never overwritten),
the failing result is returned, and none of the six concrete orientation
values is stored. -/
theorem update_orientation_read_failure_clears_output (prev : orientation_t)
    (read_result : Nat) (d : bmi160_accel) (h : read_result ≠ CY_RSLT_SUCCESS) :
    (motionsensor_update_orientation false prev read_result d).pointee =
      orientation_t.ORIENTATION_NULL ∧
    (motionsensor_update_orientation false prev read_result d).result = read_result ∧
    (motionsensor_update_orientation false prev read_result d).pointee ≠
      orientation_t.ORIENTATION_TOP_EDGE ∧
    (motionsensor_update_orientation false prev read_result d).pointee ≠
      orientation_t.ORIENTATION_BOTTOM_EDGE ∧
    (motionsensor_update_orientation false prev read_result d).pointee ≠
      orientation_t.ORIENTATION_LEFT_EDGE ∧
    (motionsensor_update_orientation false prev read_result d).pointee ≠
      orientation_t.ORIENTATION_RIGHT_EDGE ∧
    (motionsensor_update_orientation false prev read_result d).pointee ≠
      orientation_t.ORIENTATION_DISP_UP ∧
    (motionsensor_update_orientation false prev read_result d).pointee ≠
      orientation_t.ORIENTATION_DISP_DOWN := by
  have he : motionsensor_update_orientation false prev read_result d =
      { sem_trace := [SemOp.take, SemOp.give], result := read_result,
        pointee := orientation_t.ORIENTATION_NULL } := by
    simp [motionsensor_update_orientation, h]
  rw [he]
  refine ⟨rfl, rfl, ?_, ?_, ?_, ?_, ?_, ?_⟩ <;> simp

/-- Witness for C10 at the concrete call: previous value
`ORIENTATION_DISP_UP`, read failing with result 2, sample (1, 2, 3): the
hypothesis holds and the output variable is left at `ORIENTATION_NULL`. -/
theorem update_orientation_read_failure_clears_output_witness :
    (2 : Nat) ≠ CY_RSLT_SUCCESS ∧
    (motionsensor_update_orientation false orientation_t.ORIENTATION_DISP_UP 2
        ⟨1, 2, 3⟩).pointee = orientation_t.ORIENTATION_NULL := by
  refine ⟨by decide, ?_⟩
  exact (update_orientation_read_failure_clears_output orientation_t.ORIENTATION_DISP_UP 2
    ⟨1, 2, 3⟩ (by decide)).1

/-- Bus operations performed by the motion-sensor task: the I2C HAL calls
and the BMI160 driver calls, all of which talk over the shared I2C bus. -/
inductive BusOp where
  | i2c_init          -- cyhal_i2c_init (line 291)
  | i2c_configure     -- cyhal_i2c_configure (line 296)
  | bmi160_init       -- mtb_bmi160_init_i2c (line 300)
  | bmi160_config_int -- mtb_bmi160_config_int (line 402)
  | bmi160_read       -- mtb_bmi160_read (line 457)
  deriving DecidableEq, Repr

/-- Which `CHECK_RESULT` site reported a fatal condition. Each site prints a
distinct message; the `code` field of the fault event records the numeric
result code the message includes, when it includes one. -/
inductive FaultTag where
  | sem_create     -- line 208: semaphore creation failed (message has no code)
  | i2c_init       -- line 293, inside motionsensor_init
  | i2c_configure  -- line 297, inside motionsensor_init
  | sensor_init    -- line 213: mtb_bmi160_init_i2c failed
  | int_config     -- line 218: interrupt configuration failed
  | sensor_read    -- line 225: mtb_bmi160_read failed
  deriving DecidableEq, Repr

/-- Observable events of the sensing task `task_motion`. -/
inductive Event where
  | bus (op : BusOp)                        -- a bus transaction
  | fault (tag : FaultTag) (code : Option Nat) -- CHECK_RESULT printed an error, then vTaskSuspend
  | report (o : orientation_t)              -- one printed orientation line
  | wait_for_notify                         -- xTaskNotifyWait (line 256)
  deriving DecidableEq, Repr

/-- Environment that drives the sensing task: the results every driver call
would return, and the acceleration sample delivered by the n-th read. -/
structure Env where
  sem_create_ok : Bool        -- xSemaphoreCreateBinary returned non-NULL (line 207)
  i2c_init_result : Nat
  i2c_configure_result : Nat
  bmi160_init_result : Nat
  config_int_result : Nat
  read_result : Nat → Nat
  accel : Nat → bmi160_accel

/-- Embedding of the `switch(orientation)` reporting block of `task_motion`
(motion_task.c lines 230-251): each of the six concrete orientations prints
exactly one line (the `ORIENTATION_DISP_DOWN` case falls through to the
empty `default` case); `ORIENTATION_NULL` hits `default` and prints
nothing. -/
def orientation_report : orientation_t → List Event
  | orientation_t.ORIENTATION_TOP_EDGE => [Event.report orientation_t.ORIENTATION_TOP_EDGE]
  | orientation_t.ORIENTATION_BOTTOM_EDGE => [Event.report orientation_t.ORIENTATION_BOTTOM_EDGE]
  | orientation_t.ORIENTATION_LEFT_EDGE => [Event.report orientation_t.ORIENTATION_LEFT_EDGE]
  | orientation_t.ORIENTATION_RIGHT_EDGE => [Event.report orientation_t.ORIENTATION_RIGHT_EDGE]
  | orientation_t.ORIENTATION_DISP_UP => [Event.report orientation_t.ORIENTATION_DISP_UP]
  | orientation_t.ORIENTATION_DISP_DOWN => [Event.report orientation_t.ORIENTATION_DISP_DOWN]
  | orientation_t.ORIENTATION_NULL => []

/-- Events of one iteration of the `for(;;)` loop of `task_motion` (lines
221-257) on its n-th execution: the guarded sensor read performed by
`motionsensor_update_orientation`, then — if the read succeeded — the
reporting switch followed by `xTaskNotifyWait`; if the read failed,
`CHECK_RESULT` at line 225 reports the error with its code and suspends the
task. -/
def task_loop_cycle (env : Env) (n : Nat) : List Event :=
  Event.bus BusOp.bmi160_read ::
    (if env.read_result n ≠ CY_RSLT_SUCCESS then
      [Event.fault FaultTag.sensor_read (some (env.read_result n))]
    else
      orientation_report (orientation_of_accel (env.accel n)) ++ [Event.wait_for_notify])

/-- The `for(;;)` loop of `task_motion`, unrolled for `fuel` iterations
starting at iteration n: after a failed read the task is suspended and no
further events occur; after a successful cycle the loop continues with the
next sample. -/
def task_loop (env : Env) : Nat → Nat → List Event
  | _, 0 => []
  | n, fuel+1 =>
    task_loop_cycle env n ++
      (if env.read_result n ≠ CY_RSLT_SUCCESS then [] else task_loop env (n+1) fuel)

/-- Embedding of `task_motion` (motion_task.c lines 188-258) as the event
trace it produces, with the bodies of `motionsensor_init` (lines 275-306)
and `motionsensor_config_interrupt` (lines 352-410) inlined at their call
sites. Each `CHECK_RESULT` failure prints its distinct error message —
carrying the numeric result code for every driver failure, but no code for
the semaphore-creation failure at line 208 — and then suspends the task
permanently (`vTaskSuspend(NULL)`; nothing in the program resumes it). -/
def task_motion (env : Env) (fuel : Nat) : List Event :=
  if env.sem_create_ok = false then
    [Event.fault FaultTag.sem_create none]
  else
    Event.bus BusOp.i2c_init ::
      (if env.i2c_init_result ≠ CY_RSLT_SUCCESS then
        [Event.fault FaultTag.i2c_init (some env.i2c_init_result)]
      else
        Event.bus BusOp.i2c_configure ::
          (if env.i2c_configure_result ≠ CY_RSLT_SUCCESS then
            [Event.fault FaultTag.i2c_configure (some env.i2c_configure_result)]
          else
            Event.bus BusOp.bmi160_init ::
              (if env.bmi160_init_result ≠ CY_RSLT_SUCCESS then
                [Event.fault FaultTag.sensor_init (some env.bmi160_init_result)]
              else
                Event.bus BusOp.bmi160_config_int ::
                  (if env.config_int_result ≠ CY_RSLT_SUCCESS then
                    [Event.fault FaultTag.int_config (some env.config_int_result)]
                  else
                    task_loop env 0 fuel))))

/-- The classifier never returns `ORIENTATION_NULL`: every branch of lines
472-516 stores one of the six concrete orientations. -/
theorem orientation_of_accel_ne_null (a : bmi160_accel) :
    orientation_of_accel a ≠ orientation_t.ORIENTATION_NULL := by
  unfold orientation_of_accel
  by_cases hz : a.z.natAbs > a.x.natAbs ∧ a.z.natAbs > a.y.natAbs
  · simp only [if_pos hz]
    by_cases hs : a.z < 0 <;> simp [hs]
  · simp only [if_neg hz]
    by_cases hy : a.y.natAbs > a.x.natAbs ∧ a.y.natAbs > a.z.natAbs
    · simp only [if_pos hy]
      by_cases hs : a.y > 0 <;> simp [hs]
    · simp only [if_neg hy]
      by_cases hs : a.x < 0 <;> simp [hs]

/-- The reporting switch prints exactly the classified orientation when fed
a classifier result. -/
theorem orientation_report_of_accel (a : bmi160_accel) :
    orientation_report (orientation_of_accel a) =
      [Event.report (orientation_of_accel a)] := by
  have h := orientation_of_accel_ne_null a
  cases ho : orientation_of_accel a <;> simp [orientation_report]
  exact absurd ho h

/-- Checks that once a fault event occurs in a trace, nothing follows it:
the task that printed the error is suspended and produces no further
events — in particular no further orientation report and no further bus
operation. -/
def halted_after_fault : List Event → Bool
  | [] => true
  | Event.fault _ _ :: rest => rest.isEmpty
  | Event.bus _ :: rest => halted_after_fault rest
  | Event.report _ :: rest => halted_after_fault rest
  | Event.wait_for_notify :: rest => halted_after_fault rest

/-- Checks the error reporting of a single event: a driver-failure fault
must carry its (nonzero) numeric result code; the semaphore-creation fault
is printed without a numeric code; every non-fault event passes. -/
def fault_is_tagged (e : Event) : Bool :=
  match e with
  | Event.fault FaultTag.sem_create none => true
  | Event.fault FaultTag.sem_create (some _) => false
  | Event.fault _ none => false
  | Event.fault _ (some r) => r != CY_RSLT_SUCCESS
  | _ => true

/-- All fault events of a trace satisfy `fault_is_tagged`. -/
def fault_events_ok (l : List Event) : Bool := l.all fault_is_tagged

/-- Stepping `halted_after_fault` over the reporting switch changes
nothing: the switch prints reports only, never a fault. -/
theorem halted_after_fault_report_append (o : orientation_t) (l : List Event) :
    halted_after_fault (orientation_report o ++ l) = halted_after_fault l := by
  cases o <;> rfl

/-- The reporting switch output passes the fault check. -/
theorem fault_events_ok_report_append (o : orientation_t) (l : List Event) :
    fault_events_ok (orientation_report o ++ l) = fault_events_ok l := by
  cases o <;> simp [orientation_report, fault_events_ok, fault_is_tagged]

/-- In the sensing loop, a fault is always the last event of the trace. -/
theorem task_loop_halted (env : Env) (fuel : Nat) : ∀ n,
    halted_after_fault (task_loop env n fuel) = true := by
  induction fuel with
  | zero => intro n; rfl
  | succ f ih =>
    intro n
    by_cases h : env.read_result n = CY_RSLT_SUCCESS
    · simp only [task_loop, task_loop_cycle, h, ne_eq, not_true_eq_false, if_false,
        List.cons_append, List.append_assoc, List.singleton_append]
      show halted_after_fault (orientation_report _ ++ _) = true
      rw [halted_after_fault_report_append]
      exact ih (n + 1)
    · simp only [task_loop, task_loop_cycle, h, ne_eq, not_false_eq_true, if_true,
        List.cons_append, List.singleton_append, List.append_nil]
      rfl

/-- Unfolding `fault_events_ok` over a cons cell. -/
theorem fault_events_ok_cons (e : Event) (l : List Event) :
    fault_events_ok (e :: l) = (fault_is_tagged e && fault_events_ok l) := by
  simp [fault_events_ok]

/-- In the sensing loop, every fault event carries the failing read's
nonzero result code. -/
theorem task_loop_faults_tagged (env : Env) (fuel : Nat) : ∀ n,
    fault_events_ok (task_loop env n fuel) = true := by
  induction fuel with
  | zero => intro n; rfl
  | succ f ih =>
    intro n
    by_cases h : env.read_result n = CY_RSLT_SUCCESS
    · simp only [task_loop, task_loop_cycle, h, ne_eq, not_true_eq_false, if_false,
        List.cons_append, List.append_assoc, List.singleton_append]
      show fault_events_ok (Event.bus BusOp.bmi160_read ::
        (orientation_report (orientation_of_accel (env.accel n)) ++
          (Event.wait_for_notify :: task_loop env (n + 1) f))) = true
      rw [fault_events_ok_cons, fault_events_ok_report_append, fault_events_ok_cons]
      have h1 : fault_is_tagged (Event.bus BusOp.bmi160_read) = true := rfl
      have h2 : fault_is_tagged Event.wait_for_notify = true := rfl
      simp [h1, h2, ih (n + 1)]
    · simp only [task_loop, task_loop_cycle, h, ne_eq, not_false_eq_true, if_true,
        List.append_nil]
      simp [fault_events_ok, fault_is_tagged, h]

/-- C6 (amended): after any fatal condition — semaphore-creation failure,
sensor initialization failure (any of its three driver calls),
interrupt-configuration failure, or a read failure — the sensing task
reports the error and then permanently stops: the fault report is the very
last event of the trace, so no further `OrientationState` report and no
further bus operation ever occurs; every driver-failure report carries the
failing call's nonzero numeric result code, while the semaphore-creation
failure is reported by its distinct message without a numeric code. -/
theorem task_halts_after_fault (env : Env) (fuel : Nat) :
    halted_after_fault (task_motion env fuel) = true ∧
    fault_events_ok (task_motion env fuel) = true := by
  unfold task_motion
  by_cases h0 : env.sem_create_ok = false
  · simp [h0]
    exact ⟨rfl, rfl⟩
  · simp only [h0, if_false]
    by_cases h1 : env.i2c_init_result = CY_RSLT_SUCCESS
    · simp only [h1, ne_eq, not_true_eq_false, if_false]
      by_cases h2 : env.i2c_configure_result = CY_RSLT_SUCCESS
      · simp only [h2, ne_eq, not_true_eq_false, if_false]
        by_cases h3 : env.bmi160_init_result = CY_RSLT_SUCCESS
        · simp only [h3, ne_eq, not_true_eq_false, if_false]
          by_cases h4 : env.config_int_result = CY_RSLT_SUCCESS
          · simp only [h4, ne_eq, not_true_eq_false, if_false]
            constructor
            · show halted_after_fault (task_loop env 0 fuel) = true
              exact task_loop_halted env fuel 0
            · show fault_events_ok (Event.bus BusOp.i2c_init ::
                (Event.bus BusOp.i2c_configure :: (Event.bus BusOp.bmi160_init ::
                  (Event.bus BusOp.bmi160_config_int :: task_loop env 0 fuel)))) = true
              simp only [fault_events_ok_cons]
              simp [task_loop_faults_tagged env fuel 0, fault_is_tagged]
          · simp only [ne_eq, h4, not_false_eq_true, if_true]
            refine ⟨rfl, ?_⟩
            simp [fault_events_ok, fault_is_tagged, h4]
        · simp only [ne_eq, h3, not_false_eq_true, if_true]
          refine ⟨rfl, ?_⟩
          simp [fault_events_ok, fault_is_tagged, h3]
      · simp only [ne_eq, h2, not_false_eq_true, if_true]
        refine ⟨rfl, ?_⟩
        simp [fault_events_ok, fault_is_tagged, h2]
    · simp only [ne_eq, h1, not_false_eq_true, if_true]
      refine ⟨rfl, ?_⟩
      simp [fault_events_ok, fault_is_tagged, h1]

/-- Environment in which `xSemaphoreCreateBinary` fails and every driver
call would succeed. -/
def env_sem_create_fail : Env :=
  { sem_create_ok := false
    i2c_init_result := CY_RSLT_SUCCESS
    i2c_configure_result := CY_RSLT_SUCCESS
    bmi160_init_result := CY_RSLT_SUCCESS
    config_int_result := CY_RSLT_SUCCESS
    read_result := fun _ => CY_RSLT_SUCCESS
    accel := fun _ => ⟨0, 0, 0⟩ }

/-- Checks whether an event, if it is a fault report, carries a numeric
error code. -/
def fault_has_numeric_code (e : Event) : Bool :=
  match e with
  | Event.fault _ c => c.isSome
  | _ => true

/-- C6 (counterexample): when semaphore creation fails — one of the fatal
conditions the claim covers — the task's whole trace is the single fault
report of line 208, and that report carries no numeric error code (its
message is " Error : Motion Sensor - Failed to create semaphore !!" with
no "[Error code: ...]" part), contradicting the claim that every fatal
condition is reported with a distinguishing error code. -/
theorem fault_code_counterexample :
    task_motion env_sem_create_fail 1 = [Event.fault FaultTag.sem_create none] ∧
    (task_motion env_sem_create_fail 1).all fault_has_numeric_code = false := by
  constructor <;> rfl

/-- Number of orientation report events in a trace. -/
def count_reports (l : List Event) : Nat :=
  l.countP (fun e => match e with | Event.report _ => true | _ => false)

/-- C7: every loop iteration whose read succeeds reaches the reporting
switch and prints exactly one of the six concrete orientation reports —
never zero (the classifier cannot produce `ORIENTATION_NULL`, the only
silent case of the switch) and never more than one. -/
theorem one_report_per_cycle (env : Env) (n : Nat)
    (h : env.read_result n = CY_RSLT_SUCCESS) :
    task_loop_cycle env n =
      [Event.bus BusOp.bmi160_read,
       Event.report (orientation_of_accel (env.accel n)),
       Event.wait_for_notify] ∧
    orientation_of_accel (env.accel n) ≠ orientation_t.ORIENTATION_NULL ∧
    count_reports (task_loop_cycle env n) = 1 := by
  have hcy : task_loop_cycle env n =
      [Event.bus BusOp.bmi160_read,
       Event.report (orientation_of_accel (env.accel n)),
       Event.wait_for_notify] := by
    simp [task_loop_cycle, h, orientation_report_of_accel]
  refine ⟨hcy, orientation_of_accel_ne_null (env.accel n), ?_⟩
  rw [hcy]
  rfl

/-- Environment in which everything succeeds and every read delivers the
sample (x = 10, y = 20, z = 900). -/
def env_all_ok : Env :=
  { sem_create_ok := true
    i2c_init_result := CY_RSLT_SUCCESS
    i2c_configure_result := CY_RSLT_SUCCESS
    bmi160_init_result := CY_RSLT_SUCCESS
    config_int_result := CY_RSLT_SUCCESS
    read_result := fun _ => CY_RSLT_SUCCESS
    accel := fun _ => ⟨10, 20, 900⟩ }

/-- Witness for C7 in the all-successful environment at iteration 0: the
hypothesis holds and the cycle emits exactly one report. -/
theorem one_report_per_cycle_witness :
    env_all_ok.read_result 0 = CY_RSLT_SUCCESS ∧
    count_reports (task_loop_cycle env_all_ok 0) = 1 := by
  exact ⟨rfl, (one_report_per_cycle env_all_ok 0 rfl).2.2⟩

/-- Actions an interrupt service routine could in principle perform;
`motionsensor_interrupt_handler` is embedded as the list of actions it
actually performs. -/
inductive IsrAction where
  | notify_sensing_task          -- xTaskNotifyFromISR(motion_sensor_task_handle, 0, eNoAction, &w)
  | yield_request                -- portYIELD_FROM_ISR(w): non-blocking scheduler hint on return
  | sem_acquire                  -- xSemaphoreTake on the Bus Guard (would block)
  | sem_release                  -- xSemaphoreGive on the Bus Guard
  | bus_io (op : BusOp)          -- a transaction on the I2C bus
  | classify (a : bmi160_accel)  -- running the orientation classification
  | blocking_call                -- any call that can block the interrupt context
  deriving DecidableEq, Repr

/-- Embedding of `motionsensor_interrupt_handler` (motion_task.c lines
323-334): the body initializes `xHigherPriorityTaskWoken`, sends the single
task notification with `xTaskNotifyFromISR` (line 332, non-blocking),
requests a context switch with `portYIELD_FROM_ISR` on the way out
(line 333) and returns. -/
def motionsensor_interrupt_handler : List IsrAction :=
  [IsrAction.notify_sensing_task, IsrAction.yield_request]

/-- C8: the interrupt handler sends exactly one wake notification to the
sensing task and performs nothing else beyond the non-blocking
yield request that accompanies its return: it never touches the Bus Guard
semaphore, performs no bus transaction, runs no classification, and makes
no blocking call. -/
theorem interrupt_handler_only_notifies :
    motionsensor_interrupt_handler.count IsrAction.notify_sensing_task = 1 ∧
    (∀ a ∈ motionsensor_interrupt_handler,
      a = IsrAction.notify_sensing_task ∨ a = IsrAction.yield_request) ∧
    IsrAction.sem_acquire ∉ motionsensor_interrupt_handler ∧
    IsrAction.sem_release ∉ motionsensor_interrupt_handler ∧
    (∀ op, IsrAction.bus_io op ∉ motionsensor_interrupt_handler) ∧
    (∀ a, IsrAction.classify a ∉ motionsensor_interrupt_handler) ∧
    IsrAction.blocking_call ∉ motionsensor_interrupt_handler := by
  refine ⟨rfl, ?_, ?_, ?_, ?_, ?_, ?_⟩
  · intro a ha
    simp only [motionsensor_interrupt_handler, List.mem_cons, List.mem_singleton] at ha
    rcases ha with h | h | h
    · exact Or.inl h
    · exact Or.inr h
    · exact absurd h (List.not_mem_nil a)
  · simp [motionsensor_interrupt_handler]
  · simp [motionsensor_interrupt_handler]
  · intro op; simp [motionsensor_interrupt_handler]
  · intro a; simp [motionsensor_interrupt_handler]
  · simp [motionsensor_interrupt_handler]

/-- Model of `xTaskNotifyFromISR(handle, 0, eNoAction, ...)` acting on the
target task's FreeRTOS notification state: the notification state is a
single slot, and each send marks it pending; sends while it is already
pending coalesce (the state simply stays pending). -/
def xTaskNotifyFromISR (_pending : Bool) : Bool := true

/-- Notification-slot state after n interrupt firings, each of which runs
`motionsensor_interrupt_handler` and hence one `xTaskNotifyFromISR`. -/
def pending_after_fires : Nat → Bool → Bool
  | 0, pending => pending
  | n + 1, pending => pending_after_fires n (xTaskNotifyFromISR pending)

/-- Model of `xTaskNotifyWait(0, 0, NULL, portMAX_DELAY)` (line 256)
consuming the notification slot: a pending notification delivers exactly
one wake; an empty slot delivers none (the call would block until the next
send). -/
def wait_deliveries (pending : Bool) : Nat := if pending then 1 else 0

/-- The slot stays pending under further firings. -/
theorem pending_after_fires_true (n : Nat) : pending_after_fires n true = true := by
  induction n with
  | zero => rfl
  | succ m ih => exact ih

/-- Orientation values reported in a trace, in order. -/
def reports_of (l : List Event) : List orientation_t :=
  l.filterMap (fun e => match e with | Event.report o => some o | _ => none)

/-- When every read succeeds, the loop's k-th report is the classification
of the k-th sample delivered by the sensor — each wake leads to a fresh
read and a fresh classification, never a replay of older data. -/
theorem task_loop_reports (env : Env)
    (hr : ∀ k, env.read_result k = CY_RSLT_SUCCESS) (fuel : Nat) : ∀ n,
    reports_of (task_loop env n fuel) =
      (List.range fuel).map (fun i => orientation_of_accel (env.accel (n + i))) := by
  induction fuel with
  | zero => intro n; rfl
  | succ f ih =>
    intro n
    simp only [task_loop, task_loop_cycle, hr n, ne_eq, not_true_eq_false, if_false,
      List.cons_append, List.append_assoc, List.singleton_append,
      orientation_report_of_accel]
    show reports_of (Event.bus BusOp.bmi160_read ::
      (Event.report (orientation_of_accel (env.accel n)) ::
        (Event.wait_for_notify :: task_loop env (n + 1) f))) = _
    simp only [reports_of, List.filterMap_cons] at ih ⊢
    rw [ih (n + 1)]
    rw [List.range_succ_eq_map, List.map_cons, List.map_map]
    congr 1
    apply List.map_congr_left
    intro i _
    have hshift : n + 1 + i = n + (i + 1) := by omega
    simp [Function.comp_def, hshift]

/-- The other two semaphore users release on every exit path:
`motionsensor_config_interrupt` captures the driver result and gives the
semaphore back before returning it, whatever it was. -/
theorem config_interrupt_sem_balanced (r : Nat) :
    sem_held (motionsensor_config_interrupt r).sem_trace = 0 ∧
    (motionsensor_config_interrupt r).exit = ExitKind.ret r := by
  exact ⟨rfl, rfl⟩

/-- The read path also releases on every exit: `motionsensor_update_orientation`
gives the semaphore back right after `mtb_bmi160_read`, before checking the
result. -/
theorem update_orientation_sem_balanced (p : Bool) (prev : orientation_t)
    (r : Nat) (d : bmi160_accel) :
    sem_held (motionsensor_update_orientation p prev r d).sem_trace = 0 := by
  unfold motionsensor_update_orientation
  split_ifs <;> rfl

/-- C9: the interrupt-to-task wake signal is single-slot. For any N ≥ 1
interrupt firings while the sensing task is busy, the notification slot is
pending afterwards and the task's next `xTaskNotifyWait` receives exactly
one wake delivery — at least 1 and at most N (the N firings coalesce).
Moreover, on each wake the task performs a fresh read and classification:
when all reads succeed, the k-th report of the loop is the classification
of the k-th sample delivered by the sensor, never a replay of stale data. -/
theorem wake_signal_coalescing (n fuel : Nat) (env : Env)
    (hn : 1 ≤ n) (hr : ∀ k, env.read_result k = CY_RSLT_SUCCESS) :
    pending_after_fires n false = true ∧
    wait_deliveries (pending_after_fires n false) = 1 ∧
    1 ≤ wait_deliveries (pending_after_fires n false) ∧
    wait_deliveries (pending_after_fires n false) ≤ n ∧
    reports_of (task_loop env 0 fuel) =
      (List.range fuel).map (fun i => orientation_of_accel (env.accel i)) := by
  obtain ⟨m, rfl⟩ : ∃ m, n = m + 1 := ⟨n - 1, by omega⟩
  have hp : pending_after_fires (m + 1) false = true := by
    show pending_after_fires m (xTaskNotifyFromISR false) = true
    exact pending_after_fires_true m
  have hw : wait_deliveries (pending_after_fires (m + 1) false) = 1 := by
    rw [hp]
    rfl
  refine ⟨hp, hw, ?_, ?_, ?_⟩
  · rw [hw]
  · rw [hw]; omega
  · have h := task_loop_reports env hr fuel 0
    simpa using h

/-- Witness for C9 with N = 3 firings and two loop iterations in the
all-successful environment: the hypotheses hold, the three coalesced
firings deliver exactly one wake, and both cycles report the fresh
classification of their own sample. -/
theorem wake_signal_coalescing_witness :
    1 ≤ 3 ∧ env_all_ok.read_result 0 = CY_RSLT_SUCCESS ∧
    wait_deliveries (pending_after_fires 3 false) = 1 ∧
    reports_of (task_loop env_all_ok 0 2) =
      [orientation_t.ORIENTATION_DISP_UP, orientation_t.ORIENTATION_DISP_UP] := by
  have h := wake_signal_coalescing 3 2 env_all_ok (by decide) (fun _ => rfl)
  refine ⟨by decide, rfl, h.2.1, ?_⟩
  rw [h.2.2.2.2]
  decide
